import Mathlib

/-!
Verification of the request-dispatch and policy-enforcement pipeline of the
aws-lambda-venafi gateway (src/request/main.go), as a shallow embedding.

External collaborators of the core (JSON codec, base64 decoding, CSR parsing,
the policy store, AWS client configuration, the backend SDK calls, response
marshaling) are modelled as deterministic oracles gathered in an `Env`
record, exactly at the call sites where the Go code consults them.  Each
handler additionally returns the ordered list of observable calls it made to
the policy resolver, the validator and the backend invoker (`Event` trace),
so that gating properties ("the backend is never invoked unless ...") become
statements about the returned trace.
-/

namespace AwsLambdaVenafi

/-- A byte string, as a list of byte values. -/
abbrev Bytes := List Nat

/-- The transport request: the dispatch headers (Go map semantics: a missing
key yields the zero value `""`) and the raw body. -/
structure APIGatewayProxyRequest where
  Headers : String → String
  Body : String

/-- The transport response: an HTTP-style status code and a body string. -/
structure APIGatewayProxyResponse where
  StatusCode : Nat
  Body : String
deriving DecidableEq, Repr

namespace http

def StatusOK : Nat := 200

def StatusForbidden : Nat := 403

def StatusMethodNotAllowed : Nat := 405

def StatusUnprocessableEntity : Nat := 422

def StatusFailedDependency : Nat := 424

def StatusInternalServerError : Nat := 500

end http

/-- Dispatch key of the gated ACM managed-certificate operation. -/
def acmRequestCertificate : String := "CertificateManager.RequestCertificate"

/-- Dispatch key of the gated private-CA issuance operation. -/
def acmpcaIssueCertificate : String := "ACMPrivateCA.IssueCertificate"

/-- Modelled from the spec: the pass-through list-certificate-authorities
operation id; its defining constant lives outside the provided sources. -/
def acmpcaListCertificateAuthorities : String := "ACMPrivateCA.ListCertificateAuthorities"

/-- Modelled from the spec: the pass-through get-certificate operation id;
its defining constant lives outside the provided sources. -/
def acmpcaGetCertificate : String := "ACMPrivateCA.GetCertificate"

/-- The backend-native private-CA issuance input embedded in the gateway
request type.  `Csr` is the field the handler base64-decodes; the remaining
native fields are opaque to the core and collapsed into one component. -/
structure IssueCertificateInput where
  Csr : String
  otherNativeFields : String
deriving DecidableEq, Repr

/-- The decoded gated private-CA request: the embedded backend-native input
plus the gateway-level `VenafiZone` option. -/
structure ACMPCAIssueCertificateRequest where
  issueCertificateInput : IssueCertificateInput
  VenafiZone : String
deriving DecidableEq, Repr

/-- The backend-native ACM request input embedded in the gateway request
type.  `DomainName` is a pointer in the source, hence an `Option` here. -/
structure RequestCertificateInput where
  DomainName : Option String
  SubjectAlternativeNames : List String
  otherNativeFields : String
deriving DecidableEq, Repr

/-- The decoded gated ACM request: the embedded backend-native input plus
the gateway-level `VenafiZone` option. -/
structure VenafiRequestCertificateInput where
  requestCertificateInput : RequestCertificateInput
  VenafiZone : String
deriving DecidableEq, Repr

/-- The subject name of a canonical certificate request. -/
structure PkixName where
  CommonName : String
deriving DecidableEq, Repr

/-- Origin options of the canonical certificate request, as in the vcert
client library consumed by the source. -/
inductive CsrOriginOption where
  | LocalGeneratedCSR
  | ServiceGeneratedCSR
  | UserProvidedCSR
deriving DecidableEq, Repr

/-- The canonical certificate request handed to the policy validator.  The
zero value mirrors the Go zero value of `certificate.Request`. -/
structure CertificateRequest where
  Subject : PkixName := { CommonName := "" }
  DNSNames : List String := []
  CsrOrigin : CsrOriginOption := CsrOriginOption.LocalGeneratedCSR
  csr : Bytes := []
deriving DecidableEq, Repr

/-- A zone policy, opaque to the core except for its validation predicate:
`none` means the request is accepted, `some reason` is a rejection carrying
a human-readable reason. -/
structure Policy where
  ValidateCertificateRequest : CertificateRequest → Option String

/-- The backend client configuration, opaque to the core. -/
structure AWSConfig where
  Region : String := ""
deriving DecidableEq, Repr

/-- The backend-native response of the private-CA issuance call, opaque to
the core. -/
structure PCAIssueCertificateResponse where
  CertificateArn : String
deriving DecidableEq, Repr

/-- The backend-native response of the ACM managed-certificate call, opaque
to the core. -/
structure ACMRequestCertificateResponse where
  CertificateArn : String
deriving DecidableEq, Repr

/-- Observable calls a handler makes to its external collaborators, in
order: policy resolution, policy validation, and the three backend
invocation shapes. -/
inductive Event where
  | getPolicy (zone : String)
  | validate (req : CertificateRequest)
  | backendPCAIssue (input : IssueCertificateInput)
  | backendACMRequest (input : RequestCertificateInput)
  | backendPassThru (target : String) (body : String)
deriving DecidableEq, Repr

/-- The deterministic oracles standing for the external collaborators the
handlers consult, one per call site of the source. -/
structure Env where
  unmarshalPCA : String → Except String ACMPCAIssueCertificateRequest
  unmarshalACM : String → Except String VenafiRequestCertificateInput
  base64DecodeString : String → Except String Bytes
  setCSR : Bytes → Except String CertificateRequest
  GetPolicy : String → Except String Policy
  LoadDefaultAWSConfig : AWSConfig × Option String
  sendPCAIssueCertificate : AWSConfig → IssueCertificateInput → Except String PCAIssueCertificateResponse
  sendACMRequestCertificate : AWSConfig → RequestCertificateInput → Except String ACMRequestCertificateResponse
  marshalPCAResponse : PCAIssueCertificateResponse → Except String String
  marshalACMResponse : ACMRequestCertificateResponse → Except String String
  sendPassThruRequest : String → String → Except String String

/-- The error envelope builder of the source: the message is interpolated
verbatim into the literal text of the body. -/
def clientError (status : Nat) (body : String) : APIGatewayProxyResponse :=
  { StatusCode := status, Body := "\x7b \"msg\" : \"" ++ body ++ "\" \x7d" }

/-- Modelled from the spec: the format constant `errUnmarshalJson` applied
at the private-CA decode-failure branch is defined outside the provided
sources; modelled as a message naming the operation and the decode error,
per the spec decode-failure taxonomy. -/
def errUnmarshalJson (target e : String) : String :=
  "Error unmarshaling JSON for target " ++ target ++ ": " ++ e

/-- The zone defaulting of both gated handlers: an absent or empty
`VenafiZone` resolves to `"Default"`. -/
def resolvedZone (venafiZone : String) : String :=
  if venafiZone = "" then "Default" else venafiZone

/-- The canonical certificate request the ACM handler builds from the
explicit subject and SAN fields of its payload. -/
def acmCanonicalRequest (domainName : String) (sans : List String) : CertificateRequest :=
  { Subject := { CommonName := domainName },
    DNSNames := sans,
    CsrOrigin := CsrOriginOption.ServiceGeneratedCSR }

/-- The gated private-CA issuance handler, translated branch-for-branch
from `venafiACMPCAIssueCertificateRequest` of the source, paired with its
trace of collaborator calls. -/
def venafiACMPCAIssueCertificateRequest (env : Env) (request : APIGatewayProxyRequest) :
    APIGatewayProxyResponse × List Event :=
  match env.unmarshalPCA request.Body with
  | Except.error e =>
      (clientError http.StatusUnprocessableEntity (errUnmarshalJson acmpcaIssueCertificate e), [])
  | Except.ok certRequest =>
    match env.base64DecodeString certRequest.issueCertificateInput.Csr with
    | Except.error _ =>
        (clientError http.StatusUnprocessableEntity "Can\x60t decode csr from base64", [])
    | Except.ok csr =>
      match env.setCSR csr with
      | Except.error _ =>
          (clientError http.StatusUnprocessableEntity "Can\x27t parse certificate request", [])
      | Except.ok req =>
        let zone := resolvedZone certRequest.VenafiZone
        match env.GetPolicy zone with
        | Except.error e =>
            (clientError http.StatusFailedDependency ("Failed get policy from database: " ++ e),
             [Event.getPolicy zone])
        | Except.ok policy =>
          match policy.ValidateCertificateRequest req with
          | some reason =>
              (clientError http.StatusForbidden reason,
               [Event.getPolicy zone, Event.validate req])
          | none =>
            match env.LoadDefaultAWSConfig with
            | (_, some e) =>
                (clientError http.StatusInternalServerError ("Error loading client: " ++ e),
                 [Event.getPolicy zone, Event.validate req])
            | (awsCfg, none) =>
              let trace := [Event.getPolicy zone, Event.validate req,
                            Event.backendPCAIssue certRequest.issueCertificateInput]
              match env.sendPCAIssueCertificate awsCfg certRequest.issueCertificateInput with
              | Except.error e =>
                  (clientError http.StatusInternalServerError
                    ("could not get certificate response: " ++ e), trace)
              | Except.ok csrResp =>
                match env.marshalPCAResponse csrResp with
                | Except.error e =>
                    (clientError http.StatusUnprocessableEntity
                      ("Error marshaling response JSON for target " ++ acmpcaIssueCertificate
                        ++ ": " ++ e), trace)
                | Except.ok respoBodyJSON =>
                    ({ StatusCode := http.StatusOK, Body := respoBodyJSON }, trace)

/-- The gated ACM managed-certificate handler, translated branch-for-branch
from `venafiACMRequestCertificate` of the source.  The source dereferences
the `DomainName` pointer with no nil check; a `none` first component stands
for that nil-pointer panic.  The source only logs a failure of
`LoadDefaultAWSConfig` and continues with the returned configuration. -/
def venafiACMRequestCertificate (env : Env) (request : APIGatewayProxyRequest) :
    Option APIGatewayProxyResponse × List Event :=
  match env.unmarshalACM request.Body with
  | Except.error e =>
      (some (clientError http.StatusUnprocessableEntity ("Error unmarshaling JSON: " ++ e)), [])
  | Except.ok certRequest =>
    match certRequest.requestCertificateInput.DomainName with
    | none => (none, [])
    | some domainName =>
      let req : CertificateRequest :=
        acmCanonicalRequest domainName certRequest.requestCertificateInput.SubjectAlternativeNames
      let zone := resolvedZone certRequest.VenafiZone
      match env.GetPolicy zone with
      | Except.error e =>
          (some (clientError http.StatusFailedDependency ("Failed get policy from database: " ++ e)),
           [Event.getPolicy zone])
      | Except.ok policy =>
        match policy.ValidateCertificateRequest req with
        | some reason =>
            (some (clientError http.StatusForbidden reason),
             [Event.getPolicy zone, Event.validate req])
        | none =>
          let awsCfg := (env.LoadDefaultAWSConfig).fst
          let trace := [Event.getPolicy zone, Event.validate req,
                        Event.backendACMRequest certRequest.requestCertificateInput]
          match env.sendACMRequestCertificate awsCfg certRequest.requestCertificateInput with
          | Except.error e =>
              (some (clientError http.StatusInternalServerError
                ("could not get certificate response: " ++ e)), trace)
          | Except.ok certResp =>
            match env.marshalACMResponse certResp with
            | Except.error e =>
                (some (clientError http.StatusUnprocessableEntity
                  ("Error marshaling response JSON: " ++ e)), trace)
            | Except.ok respoBodyJSON =>
                (some { StatusCode := http.StatusOK, Body := respoBodyJSON }, trace)

/-- Modelled from the spec: the pass-through flow (`passThru` in the
source, outside the provided sources) forwards the inbound payload to the
backend unmodified and relays its response unmodified; no zone or policy
fields are consulted. -/
def passThru (env : Env) (request : APIGatewayProxyRequest) (target : String) :
    APIGatewayProxyResponse × List Event :=
  match env.sendPassThruRequest target request.Body with
  | Except.error e =>
      (clientError http.StatusInternalServerError e, [Event.backendPassThru target request.Body])
  | Except.ok respBody =>
      ({ StatusCode := http.StatusOK, Body := respBody }, [Event.backendPassThru target request.Body])

/-- The dispatcher, translated from `ACMPCAHandler` of the source: a switch
on the `X-Amz-Target` header over the fixed operation registry, defaulting
to the unsupported-operation failure. -/
def ACMPCAHandler (env : Env) (request : APIGatewayProxyRequest) :
    Option APIGatewayProxyResponse × List Event :=
  let target := request.Headers "X-Amz-Target"
  if target = acmpcaIssueCertificate then
    let r := venafiACMPCAIssueCertificateRequest env request
    (some r.fst, r.snd)
  else if target = acmRequestCertificate then
    venafiACMRequestCertificate env request
  else if target = acmpcaListCertificateAuthorities then
    let r := passThru env request acmpcaListCertificateAuthorities
    (some r.fst, r.snd)
  else if target = acmpcaGetCertificate then
    let r := passThru env request acmpcaGetCertificate
    (some r.fst, r.snd)
  else
    (some (clientError http.StatusMethodNotAllowed "Can\x27t determine requested method"), [])

/-! Spec-side description of the error envelope.  The spec promises that
every failure body is a well-formed JSON object of the shape
`\x7b "msg" : "<message>" \x7d`; the following small JSON reader follows the
spec words (JSON object with the single key `msg` and a JSON string value,
with standard string escaping) and recovers the message from a body. -/

/-- JSON insignificant whitespace. -/
def isJsonWs (c : Char) : Bool :=
  c == ' ' || c == '\t' || c == '\n' || c == '\r'

/-- Drop leading JSON whitespace. -/
def skipJsonWs : List Char → List Char
  | [] => []
  | c :: rest => if isJsonWs c then skipJsonWs rest else c :: rest

/-- Value of a hexadecimal digit. -/
def hexVal (c : Char) : Option Nat :=
  if '0' ≤ c ∧ c ≤ '9' then some (c.toNat - 48)
  else if 'a' ≤ c ∧ c ≤ 'f' then some (c.toNat - 87)
  else if 'A' ≤ c ∧ c ≤ 'F' then some (c.toNat - 55)
  else none

/-- The single-character JSON string escapes. -/
def jsonSimpleEscape (c : Char) : Option Char :=
  if c = '"' ∨ c = '\\' ∨ c = '/' then some c
  else if c = 'b' then some (Char.ofNat 8)
  else if c = 'f' then some (Char.ofNat 12)
  else if c = 'n' then some '\n'
  else if c = 'r' then some '\r'
  else if c = 't' then some '\t'
  else none

/-- Read the remainder of a JSON string after its opening quote, returning
the decoded characters and the input following the closing quote. -/
def parseJsonStringRest : List Char → Option (List Char × List Char)
  | [] => none
  | c :: rest =>
    if c = '"' then some ([], rest)
    else if c = '\\' then
      match rest with
      | [] => none
      | e :: rest2 =>
        if e = 'u' then
          match rest2 with
          | a :: b :: c2 :: d :: rest3 =>
            match hexVal a, hexVal b, hexVal c2, hexVal d, parseJsonStringRest rest3 with
            | some ha, some hb, some hc, some hd, some (s, r) =>
                some (Char.ofNat (4096 * ha + 256 * hb + 16 * hc + hd) :: s, r)
            | _, _, _, _, _ => none
          | _ => none
        else
          match jsonSimpleEscape e, parseJsonStringRest rest2 with
          | some ec, some (s, r) => some (ec :: s, r)
          | _, _ => none
    else if c.toNat < 32 then none
    else
      match parseJsonStringRest rest with
      | some (s, r) => some (c :: s, r)
      | none => none

/-- Read a complete JSON string, opening quote included. -/
def parseJsonString : List Char → Option (List Char × List Char)
  | c :: rest => if c = '"' then parseJsonStringRest rest else none
  | [] => none

/-- Follows the spec words for the error envelope: read a body as the JSON
object with single key `msg` and a JSON string value, and return the
decoded message; `none` when the body is not such a well-formed object. -/
def specMsgEnvelope (s : String) : Option String :=
  match skipJsonWs s.data with
  | [] => none
  | c :: rest =>
    if c = Char.ofNat 123 then
      match parseJsonString (skipJsonWs rest) with
      | none => none
      | some (key, rest2) =>
        if key = ['m', 's', 'g'] then
          match skipJsonWs rest2 with
          | [] => none
          | c2 :: rest3 =>
            if c2 = ':' then
              match parseJsonString (skipJsonWs rest3) with
              | none => none
              | some (value, rest4) =>
                match skipJsonWs rest4 with
                | [] => none
                | c3 :: rest5 =>
                  if c3 = Char.ofNat 125 ∧ skipJsonWs rest5 = [] then
                    some (String.mk value)
                  else none
            else none
        else none
    else none

/-- A message character needing no JSON escaping: not a quote, not a
backslash, not a control character. -/
def plainMsgChar (c : Char) : Bool :=
  (c != '"') && (c != '\\') && decide (32 ≤ c.toNat)

/-! Concrete sample payloads and collaborator environments, used to
exercise the handlers on closed inputs. -/

/-- A sample embedded private-CA issuance input. -/
def sampleCSRInput : IssueCertificateInput :=
  { Csr := "QlpD", otherNativeFields := "CertificateAuthorityArn=arn:sample" }

/-- A sample decoded private-CA gateway request with an empty zone. -/
def samplePCARequest : ACMPCAIssueCertificateRequest :=
  { issueCertificateInput := sampleCSRInput, VenafiZone := "" }

/-- A sample parsed canonical request, as the CSR parser would return. -/
def sampleParsedCSR : CertificateRequest :=
  { Subject := { CommonName := "test.example.com" },
    CsrOrigin := CsrOriginOption.UserProvidedCSR,
    csr := [48, 130, 2, 1] }

/-- A sample embedded ACM request input. -/
def sampleACMInput : RequestCertificateInput :=
  { DomainName := some "test.example.com",
    SubjectAlternativeNames := ["www.example.com"],
    otherNativeFields := "IdempotencyToken=sample" }

/-- A sample decoded ACM gateway request with an empty zone. -/
def sampleACMRequest : VenafiRequestCertificateInput :=
  { requestCertificateInput := sampleACMInput, VenafiZone := "" }

/-- A collaborator environment in which every step succeeds and every
policy accepts. -/
def sampleEnv : Env :=
  { unmarshalPCA := fun _ => Except.ok samplePCARequest,
    unmarshalACM := fun _ => Except.ok sampleACMRequest,
    base64DecodeString := fun _ => Except.ok [48, 130, 2, 1],
    setCSR := fun _ => Except.ok sampleParsedCSR,
    GetPolicy := fun _ => Except.ok { ValidateCertificateRequest := fun _ => none },
    LoadDefaultAWSConfig := ({ Region := "us-east-1" }, none),
    sendPCAIssueCertificate := fun _ _ => Except.ok { CertificateArn := "arn:aws:acm-pca:cert/1" },
    sendACMRequestCertificate := fun _ _ => Except.ok { CertificateArn := "arn:aws:acm:cert/2" },
    marshalPCAResponse := fun r => Except.ok ("\x7b\"CertificateArn\":\"" ++ r.CertificateArn ++ "\"\x7d"),
    marshalACMResponse := fun r => Except.ok ("\x7b\"CertificateArn\":\"" ++ r.CertificateArn ++ "\"\x7d"),
    sendPassThruRequest := fun _ body => Except.ok body }

/-- A transport request carrying the given dispatch target and body. -/
def sampleRequest (target body : String) : APIGatewayProxyRequest :=
  { Headers := fun k => if k = "X-Amz-Target" then target else "", Body := body }

/-- An environment whose private-CA JSON decode step fails. -/
def sampleEnvBadJson : Env :=
  { sampleEnv with unmarshalPCA := fun _ => Except.error "invalid character" }

/-- An environment whose base64 decode step fails. -/
def sampleEnvBadB64 : Env :=
  { sampleEnv with base64DecodeString := fun _ => Except.error "illegal base64 data" }

/-- An environment whose policy store rejects every zone lookup. -/
def sampleEnvGhostZone : Env :=
  { sampleEnv with GetPolicy := fun _ => Except.error "zone not found" }

/-- A policy rejecting every request with a fixed reason. -/
def sampleDenyAllPolicy : Policy :=
  { ValidateCertificateRequest := fun _ => some "common name not allowed by policy" }

/-- An environment whose resolved policy rejects every request. -/
def sampleEnvDenyAll : Env :=
  { sampleEnv with GetPolicy := fun _ => Except.ok sampleDenyAllPolicy }

/-- An environment whose backend client configuration fails to load. -/
def sampleEnvNoCfg : Env :=
  { sampleEnv with LoadDefaultAWSConfig := ({ Region := "" }, some "no credential provider") }

/-- A decoded ACM gateway request whose `DomainName` pointer is nil. -/
def sampleACMRequestNoDomain : VenafiRequestCertificateInput :=
  { requestCertificateInput :=
      { DomainName := none, SubjectAlternativeNames := [], otherNativeFields := "" },
    VenafiZone := "" }

/-- An environment whose ACM decode step yields a payload without a
`DomainName`. -/
def sampleEnvNoDomain : Env :=
  { sampleEnv with unmarshalACM := fun _ => Except.ok sampleACMRequestNoDomain }

/-!  Theorems: the frozen claims. -/

/-- C10: for every inbound request whose `X-Amz-Target` dispatch key is not
one of the four registered operations, the handler returns the
unsupported-operation failure with method-not-allowed status regardless of
the payload, and its trace is empty: no decode, policy or backend call. -/
theorem C10_unknown_dispatch_key (env : Env) (request : APIGatewayProxyRequest)
    (h1 : request.Headers "X-Amz-Target" ≠ acmpcaIssueCertificate)
    (h2 : request.Headers "X-Amz-Target" ≠ acmRequestCertificate)
    (h3 : request.Headers "X-Amz-Target" ≠ acmpcaListCertificateAuthorities)
    (h4 : request.Headers "X-Amz-Target" ≠ acmpcaGetCertificate) :
    ACMPCAHandler env request =
      (some (clientError http.StatusMethodNotAllowed "Can\x27t determine requested method"), []) := by
  simp [ACMPCAHandler, h1, h2, h3, h4]

/-- Witness for C10 at the concrete dispatch key `"Foo.Bar"`. -/
theorem C10_unknown_dispatch_key_witness :
    ((sampleRequest "Foo.Bar" "ignored").Headers "X-Amz-Target" ≠ acmpcaIssueCertificate) ∧
    ((sampleRequest "Foo.Bar" "ignored").Headers "X-Amz-Target" ≠ acmRequestCertificate) ∧
    ((sampleRequest "Foo.Bar" "ignored").Headers "X-Amz-Target" ≠ acmpcaListCertificateAuthorities) ∧
    ((sampleRequest "Foo.Bar" "ignored").Headers "X-Amz-Target" ≠ acmpcaGetCertificate) ∧
    ACMPCAHandler sampleEnv (sampleRequest "Foo.Bar" "ignored") =
      (some (clientError http.StatusMethodNotAllowed "Can\x27t determine requested method"), []) :=
  ⟨by decide, by decide, by decide, by decide,
   C10_unknown_dispatch_key sampleEnv (sampleRequest "Foo.Bar" "ignored")
     (by decide) (by decide) (by decide) (by decide)⟩

/-- C3: in the private-CA handler, a JSON decode failure, a base64 decode
failure of the embedded `Csr`, and a CSR parse failure each yield the
unprocessable client-error response, and each happens before any policy
resolution or backend call (the trace is empty). -/
theorem C3_pca_decode_failures (env : Env) (request : APIGatewayProxyRequest) :
    (∀ e, env.unmarshalPCA request.Body = Except.error e →
      venafiACMPCAIssueCertificateRequest env request =
        (clientError http.StatusUnprocessableEntity (errUnmarshalJson acmpcaIssueCertificate e),
         [])) ∧
    (∀ cr e, env.unmarshalPCA request.Body = Except.ok cr →
      env.base64DecodeString cr.issueCertificateInput.Csr = Except.error e →
      venafiACMPCAIssueCertificateRequest env request =
        (clientError http.StatusUnprocessableEntity "Can\x60t decode csr from base64", [])) ∧
    (∀ cr csr e, env.unmarshalPCA request.Body = Except.ok cr →
      env.base64DecodeString cr.issueCertificateInput.Csr = Except.ok csr →
      env.setCSR csr = Except.error e →
      venafiACMPCAIssueCertificateRequest env request =
        (clientError http.StatusUnprocessableEntity "Can\x27t parse certificate request", [])) := by
  refine ⟨fun e h => ?_, fun cr e h1 h2 => ?_, fun cr csr e h1 h2 h3 => ?_⟩
  · simp [venafiACMPCAIssueCertificateRequest, h]
  · simp [venafiACMPCAIssueCertificateRequest, h1, h2]
  · simp [venafiACMPCAIssueCertificateRequest, h1, h2, h3]

/-- Witness for C3 at a concrete environment whose base64 step rejects. -/
theorem C3_pca_decode_failures_witness :
    (sampleEnvBadB64.unmarshalPCA
        (sampleRequest acmpcaIssueCertificate "body").Body = Except.ok samplePCARequest) ∧
    (sampleEnvBadB64.base64DecodeString samplePCARequest.issueCertificateInput.Csr =
        Except.error "illegal base64 data") ∧
    venafiACMPCAIssueCertificateRequest sampleEnvBadB64
        (sampleRequest acmpcaIssueCertificate "body") =
      (clientError http.StatusUnprocessableEntity "Can\x60t decode csr from base64", []) :=
  ⟨rfl, rfl,
   (C3_pca_decode_failures sampleEnvBadB64 (sampleRequest acmpcaIssueCertificate "body")).2.1
     samplePCARequest "illegal base64 data" rfl rfl⟩

/-- C5: in both gated handlers, a policy-resolution failure yields the
failed-dependency response — a status distinct from the forbidden status of
validation rejections — and the trace carries the policy lookup only: no
backend call is made. -/
theorem C5_policy_resolution_failure (env : Env) (request : APIGatewayProxyRequest) :
    (∀ cr csr creq e,
      env.unmarshalPCA request.Body = Except.ok cr →
      env.base64DecodeString cr.issueCertificateInput.Csr = Except.ok csr →
      env.setCSR csr = Except.ok creq →
      env.GetPolicy (resolvedZone cr.VenafiZone) = Except.error e →
      venafiACMPCAIssueCertificateRequest env request =
        (clientError http.StatusFailedDependency ("Failed get policy from database: " ++ e),
         [Event.getPolicy (resolvedZone cr.VenafiZone)])) ∧
    (∀ cr d e,
      env.unmarshalACM request.Body = Except.ok cr →
      cr.requestCertificateInput.DomainName = some d →
      env.GetPolicy (resolvedZone cr.VenafiZone) = Except.error e →
      venafiACMRequestCertificate env request =
        (some (clientError http.StatusFailedDependency ("Failed get policy from database: " ++ e)),
         [Event.getPolicy (resolvedZone cr.VenafiZone)])) ∧
    http.StatusFailedDependency ≠ http.StatusForbidden := by
  refine ⟨fun cr csr creq e h1 h2 h3 h4 => ?_, fun cr d e h1 h2 h3 => ?_, by decide⟩
  · simp [venafiACMPCAIssueCertificateRequest, h1, h2, h3, h4]
  · simp [venafiACMRequestCertificate, h1, h2, h3]

/-- Witness for C5 at a concrete environment whose policy store rejects the
lookup. -/
theorem C5_policy_resolution_failure_witness :
    ((sampleEnvGhostZone.unmarshalPCA
        (sampleRequest acmpcaIssueCertificate "body").Body = Except.ok samplePCARequest) ∧
      sampleEnvGhostZone.base64DecodeString
        samplePCARequest.issueCertificateInput.Csr = Except.ok [48, 130, 2, 1] ∧
      sampleEnvGhostZone.setCSR [48, 130, 2, 1] = Except.ok sampleParsedCSR ∧
      sampleEnvGhostZone.GetPolicy (resolvedZone samplePCARequest.VenafiZone) =
        Except.error "zone not found") ∧
    venafiACMPCAIssueCertificateRequest sampleEnvGhostZone
        (sampleRequest acmpcaIssueCertificate "body") =
      (clientError http.StatusFailedDependency
        ("Failed get policy from database: " ++ "zone not found"),
       [Event.getPolicy (resolvedZone samplePCARequest.VenafiZone)]) :=
  ⟨⟨rfl, rfl, rfl, rfl⟩,
   (C5_policy_resolution_failure sampleEnvGhostZone
       (sampleRequest acmpcaIssueCertificate "body")).1
     samplePCARequest [48, 130, 2, 1] sampleParsedCSR "zone not found" rfl rfl rfl rfl⟩

/-- C4: in both gated handlers, a validation rejection yields the forbidden
response whose enveloped message is exactly the reason produced by the
validator, and the trace stops at the validation call: no backend call is
made. -/
theorem C4_policy_violation_forbidden (env : Env) (request : APIGatewayProxyRequest) :
    (∀ cr csr creq policy reason,
      env.unmarshalPCA request.Body = Except.ok cr →
      env.base64DecodeString cr.issueCertificateInput.Csr = Except.ok csr →
      env.setCSR csr = Except.ok creq →
      env.GetPolicy (resolvedZone cr.VenafiZone) = Except.ok policy →
      policy.ValidateCertificateRequest creq = some reason →
      venafiACMPCAIssueCertificateRequest env request =
        (clientError http.StatusForbidden reason,
         [Event.getPolicy (resolvedZone cr.VenafiZone), Event.validate creq])) ∧
    (∀ cr d policy reason,
      env.unmarshalACM request.Body = Except.ok cr →
      cr.requestCertificateInput.DomainName = some d →
      env.GetPolicy (resolvedZone cr.VenafiZone) = Except.ok policy →
      policy.ValidateCertificateRequest
        (acmCanonicalRequest d cr.requestCertificateInput.SubjectAlternativeNames) =
        some reason →
      venafiACMRequestCertificate env request =
        (some (clientError http.StatusForbidden reason),
         [Event.getPolicy (resolvedZone cr.VenafiZone),
          Event.validate
            (acmCanonicalRequest d cr.requestCertificateInput.SubjectAlternativeNames)])) := by
  refine ⟨fun cr csr creq policy reason h1 h2 h3 h4 h5 => ?_,
          fun cr d policy reason h1 h2 h3 h4 => ?_⟩
  · simp [venafiACMPCAIssueCertificateRequest, h1, h2, h3, h4, h5]
  · simp [venafiACMRequestCertificate, h1, h2, h3, h4]

/-- Witness for C4 at a concrete environment whose policy rejects every
request with a fixed reason. -/
theorem C4_policy_violation_forbidden_witness :
    ((sampleEnvDenyAll.unmarshalPCA
        (sampleRequest acmpcaIssueCertificate "body").Body = Except.ok samplePCARequest) ∧
      sampleEnvDenyAll.base64DecodeString
        samplePCARequest.issueCertificateInput.Csr = Except.ok [48, 130, 2, 1] ∧
      sampleEnvDenyAll.setCSR [48, 130, 2, 1] = Except.ok sampleParsedCSR ∧
      sampleEnvDenyAll.GetPolicy (resolvedZone samplePCARequest.VenafiZone) =
        Except.ok sampleDenyAllPolicy ∧
      sampleDenyAllPolicy.ValidateCertificateRequest sampleParsedCSR =
        some "common name not allowed by policy") ∧
    venafiACMPCAIssueCertificateRequest sampleEnvDenyAll
        (sampleRequest acmpcaIssueCertificate "body") =
      (clientError http.StatusForbidden "common name not allowed by policy",
       [Event.getPolicy (resolvedZone samplePCARequest.VenafiZone),
        Event.validate sampleParsedCSR]) :=
  ⟨⟨rfl, rfl, rfl, rfl, rfl⟩,
   (C4_policy_violation_forbidden sampleEnvDenyAll
       (sampleRequest acmpcaIssueCertificate "body")).1
     samplePCARequest [48, 130, 2, 1] sampleParsedCSR sampleDenyAllPolicy
     "common name not allowed by policy" rfl rfl rfl rfl rfl⟩

/-- C6: in both gated handlers, a payload whose `VenafiZone` is absent
(decoded as the empty string) resolves its policy against the zone
`"Default"`: every policy-resolution call in the trace uses `"Default"`. -/
theorem C6_default_zone (env : Env) (request : APIGatewayProxyRequest) :
    (∀ cr, env.unmarshalPCA request.Body = Except.ok cr → cr.VenafiZone = "" →
      ∀ z, Event.getPolicy z ∈ (venafiACMPCAIssueCertificateRequest env request).snd →
        z = "Default") ∧
    (∀ cr, env.unmarshalACM request.Body = Except.ok cr → cr.VenafiZone = "" →
      ∀ z, Event.getPolicy z ∈ (venafiACMRequestCertificate env request).snd →
        z = "Default") := by
  constructor
  · intro cr h1 hz z hmem
    simp only [venafiACMPCAIssueCertificateRequest, h1, hz, resolvedZone] at hmem
    repeat' split at hmem
    all_goals simp_all
  · intro cr h1 hz z hmem
    simp only [venafiACMRequestCertificate, h1, hz, resolvedZone] at hmem
    repeat' split at hmem
    all_goals simp_all

/-- Witness for C6: the zone-omitting sample request resolves the policy
for `"Default"` in the successful sample environment. -/
theorem C6_default_zone_witness :
    (sampleEnv.unmarshalPCA
        (sampleRequest acmpcaIssueCertificate "body").Body = Except.ok samplePCARequest) ∧
    samplePCARequest.VenafiZone = "" ∧
    Event.getPolicy "Default" ∈
      (venafiACMPCAIssueCertificateRequest sampleEnv
        (sampleRequest acmpcaIssueCertificate "body")).snd ∧
    "Default" = "Default" :=
  ⟨rfl, rfl, by decide,
   (C6_default_zone sampleEnv (sampleRequest acmpcaIssueCertificate "body")).1
     samplePCARequest rfl rfl "Default" (by decide)⟩

/-- Once decode, policy resolution, validation and configuration loading
have succeeded, the private-CA trace is exactly the policy lookup, the
validation call and the backend invocation with the original embedded
input, whatever the backend and the response marshaler do. -/
lemma venafiPCA_success_trace (env : Env) (request : APIGatewayProxyRequest)
    (cr : ACMPCAIssueCertificateRequest) (csr : Bytes) (creq : CertificateRequest)
    (policy : Policy) (cfg : AWSConfig)
    (h1 : env.unmarshalPCA request.Body = Except.ok cr)
    (h2 : env.base64DecodeString cr.issueCertificateInput.Csr = Except.ok csr)
    (h3 : env.setCSR csr = Except.ok creq)
    (h4 : env.GetPolicy (resolvedZone cr.VenafiZone) = Except.ok policy)
    (h5 : policy.ValidateCertificateRequest creq = none)
    (h6 : env.LoadDefaultAWSConfig = (cfg, none)) :
    (venafiACMPCAIssueCertificateRequest env request).snd =
      [Event.getPolicy (resolvedZone cr.VenafiZone), Event.validate creq,
       Event.backendPCAIssue cr.issueCertificateInput] := by
  simp only [venafiACMPCAIssueCertificateRequest, h1, h2, h3, h4, h5, h6]
  repeat' split
  all_goals rfl

/-- Once decode and validation have succeeded, the ACM trace is exactly the
policy lookup, the validation call and the backend invocation with the
original embedded input, whatever the configuration loader, the backend and
the response marshaler do. -/
lemma venafiACM_success_trace (env : Env) (request : APIGatewayProxyRequest)
    (cr : VenafiRequestCertificateInput) (d : String) (policy : Policy)
    (h1 : env.unmarshalACM request.Body = Except.ok cr)
    (h2 : cr.requestCertificateInput.DomainName = some d)
    (h3 : env.GetPolicy (resolvedZone cr.VenafiZone) = Except.ok policy)
    (h4 : policy.ValidateCertificateRequest
        (acmCanonicalRequest d cr.requestCertificateInput.SubjectAlternativeNames) = none) :
    (venafiACMRequestCertificate env request).snd =
      [Event.getPolicy (resolvedZone cr.VenafiZone),
       Event.validate (acmCanonicalRequest d cr.requestCertificateInput.SubjectAlternativeNames),
       Event.backendACMRequest cr.requestCertificateInput] := by
  simp only [venafiACMRequestCertificate, h1, h2, h3, h4]
  repeat' split
  all_goals rfl

/-- C1: the backend invoker of a gated operation is reached only after the
payload decode, the policy resolution and the policy validation have all
succeeded, in that order (the trace is then exactly lookup, validation,
backend call); a decode failure leaves an empty trace, and a validation
rejection leaves a trace with no backend invocation, for both gated
operations. -/
theorem C1_validation_gates_backend (env : Env) (request : APIGatewayProxyRequest) :
    ((∃ input, Event.backendPCAIssue input ∈
        (venafiACMPCAIssueCertificateRequest env request).snd) →
      ∃ cr csr creq policy,
        env.unmarshalPCA request.Body = Except.ok cr ∧
        env.base64DecodeString cr.issueCertificateInput.Csr = Except.ok csr ∧
        env.setCSR csr = Except.ok creq ∧
        env.GetPolicy (resolvedZone cr.VenafiZone) = Except.ok policy ∧
        policy.ValidateCertificateRequest creq = none ∧
        (venafiACMPCAIssueCertificateRequest env request).snd =
          [Event.getPolicy (resolvedZone cr.VenafiZone), Event.validate creq,
           Event.backendPCAIssue cr.issueCertificateInput]) ∧
    ((∃ input, Event.backendACMRequest input ∈
        (venafiACMRequestCertificate env request).snd) →
      ∃ cr d policy,
        env.unmarshalACM request.Body = Except.ok cr ∧
        cr.requestCertificateInput.DomainName = some d ∧
        env.GetPolicy (resolvedZone cr.VenafiZone) = Except.ok policy ∧
        policy.ValidateCertificateRequest
          (acmCanonicalRequest d cr.requestCertificateInput.SubjectAlternativeNames) = none ∧
        (venafiACMRequestCertificate env request).snd =
          [Event.getPolicy (resolvedZone cr.VenafiZone),
           Event.validate
             (acmCanonicalRequest d cr.requestCertificateInput.SubjectAlternativeNames),
           Event.backendACMRequest cr.requestCertificateInput]) ∧
    (∀ e, env.unmarshalPCA request.Body = Except.error e →
      (venafiACMPCAIssueCertificateRequest env request).snd = []) ∧
    (∀ e, env.unmarshalACM request.Body = Except.error e →
      (venafiACMRequestCertificate env request).snd = []) ∧
    (∀ cr csr creq policy reason,
      env.unmarshalPCA request.Body = Except.ok cr →
      env.base64DecodeString cr.issueCertificateInput.Csr = Except.ok csr →
      env.setCSR csr = Except.ok creq →
      env.GetPolicy (resolvedZone cr.VenafiZone) = Except.ok policy →
      policy.ValidateCertificateRequest creq = some reason →
      ∀ input, Event.backendPCAIssue input ∉
        (venafiACMPCAIssueCertificateRequest env request).snd) ∧
    (∀ cr d policy reason,
      env.unmarshalACM request.Body = Except.ok cr →
      cr.requestCertificateInput.DomainName = some d →
      env.GetPolicy (resolvedZone cr.VenafiZone) = Except.ok policy →
      policy.ValidateCertificateRequest
        (acmCanonicalRequest d cr.requestCertificateInput.SubjectAlternativeNames) =
        some reason →
      ∀ input, Event.backendACMRequest input ∉
        (venafiACMRequestCertificate env request).snd) := by
  refine ⟨?_, ?_, ?_, ?_, ?_, ?_⟩
  · rintro ⟨input, hmem⟩
    cases h1 : env.unmarshalPCA request.Body with
    | error e => simp [venafiACMPCAIssueCertificateRequest, h1] at hmem
    | ok cr =>
      cases h2 : env.base64DecodeString cr.issueCertificateInput.Csr with
      | error e => simp [venafiACMPCAIssueCertificateRequest, h1, h2] at hmem
      | ok csr =>
        cases h3 : env.setCSR csr with
        | error e => simp [venafiACMPCAIssueCertificateRequest, h1, h2, h3] at hmem
        | ok creq =>
          cases h4 : env.GetPolicy (resolvedZone cr.VenafiZone) with
          | error e => simp [venafiACMPCAIssueCertificateRequest, h1, h2, h3, h4] at hmem
          | ok policy =>
            cases h5 : policy.ValidateCertificateRequest creq with
            | some reason =>
                simp [venafiACMPCAIssueCertificateRequest, h1, h2, h3, h4, h5] at hmem
            | none =>
              cases h6 : env.LoadDefaultAWSConfig with
              | mk cfg oe =>
                cases oe with
                | some e =>
                    simp [venafiACMPCAIssueCertificateRequest, h1, h2, h3, h4, h5, h6] at hmem
                | none =>
                  exact ⟨cr, csr, creq, policy, rfl, h2, h3, h4, h5,
                    venafiPCA_success_trace env request cr csr creq policy cfg
                      h1 h2 h3 h4 h5 h6⟩
  · rintro ⟨input, hmem⟩
    cases h1 : env.unmarshalACM request.Body with
    | error e => simp [venafiACMRequestCertificate, h1] at hmem
    | ok cr =>
      cases h2 : cr.requestCertificateInput.DomainName with
      | none => simp [venafiACMRequestCertificate, h1, h2] at hmem
      | some d =>
        cases h3 : env.GetPolicy (resolvedZone cr.VenafiZone) with
        | error e => simp [venafiACMRequestCertificate, h1, h2, h3] at hmem
        | ok policy =>
          cases h4 : policy.ValidateCertificateRequest
              (acmCanonicalRequest d cr.requestCertificateInput.SubjectAlternativeNames) with
          | some reason => simp [venafiACMRequestCertificate, h1, h2, h3, h4] at hmem
          | none =>
            exact ⟨cr, d, policy, rfl, h2, h3, h4,
              venafiACM_success_trace env request cr d policy h1 h2 h3 h4⟩
  · intro e h1
    simp [venafiACMPCAIssueCertificateRequest, h1]
  · intro e h1
    simp [venafiACMRequestCertificate, h1]
  · intro cr csr creq policy reason h1 h2 h3 h4 h5 input
    simp [venafiACMPCAIssueCertificateRequest, h1, h2, h3, h4, h5]
  · intro cr d policy reason h1 h2 h3 h4 input
    simp [venafiACMRequestCertificate, h1, h2, h3, h4]

/-- Witness for C1: in the all-success sample environment the private-CA
backend is invoked, and the gating conclusion instantiates. -/
theorem C1_validation_gates_backend_witness :
    (∃ input, Event.backendPCAIssue input ∈
      (venafiACMPCAIssueCertificateRequest sampleEnv
        (sampleRequest acmpcaIssueCertificate "body")).snd) ∧
    (∃ cr csr creq policy,
      sampleEnv.unmarshalPCA (sampleRequest acmpcaIssueCertificate "body").Body =
        Except.ok cr ∧
      sampleEnv.base64DecodeString cr.issueCertificateInput.Csr = Except.ok csr ∧
      sampleEnv.setCSR csr = Except.ok creq ∧
      sampleEnv.GetPolicy (resolvedZone cr.VenafiZone) = Except.ok policy ∧
      policy.ValidateCertificateRequest creq = none ∧
      (venafiACMPCAIssueCertificateRequest sampleEnv
        (sampleRequest acmpcaIssueCertificate "body")).snd =
        [Event.getPolicy (resolvedZone cr.VenafiZone), Event.validate creq,
         Event.backendPCAIssue cr.issueCertificateInput]) :=
  ⟨⟨sampleCSRInput, by decide⟩,
   (C1_validation_gates_backend sampleEnv (sampleRequest acmpcaIssueCertificate "body")).1
     ⟨sampleCSRInput, by decide⟩⟩

/-- C2: for every gated request passing validation, the backend is invoked
with the embedded operation-native input exactly as decoded from the
inbound body, and on backend success the handler returns status 200 with
the marshaled backend response as its body, unmodified. -/
theorem C2_native_payload_roundtrip (env : Env) (request : APIGatewayProxyRequest) :
    (∀ cr csr creq policy cfg resp body,
      env.unmarshalPCA request.Body = Except.ok cr →
      env.base64DecodeString cr.issueCertificateInput.Csr = Except.ok csr →
      env.setCSR csr = Except.ok creq →
      env.GetPolicy (resolvedZone cr.VenafiZone) = Except.ok policy →
      policy.ValidateCertificateRequest creq = none →
      env.LoadDefaultAWSConfig = (cfg, none) →
      env.sendPCAIssueCertificate cfg cr.issueCertificateInput = Except.ok resp →
      env.marshalPCAResponse resp = Except.ok body →
      venafiACMPCAIssueCertificateRequest env request =
        ({ StatusCode := http.StatusOK, Body := body },
         [Event.getPolicy (resolvedZone cr.VenafiZone), Event.validate creq,
          Event.backendPCAIssue cr.issueCertificateInput])) ∧
    (∀ cr d policy resp body,
      env.unmarshalACM request.Body = Except.ok cr →
      cr.requestCertificateInput.DomainName = some d →
      env.GetPolicy (resolvedZone cr.VenafiZone) = Except.ok policy →
      policy.ValidateCertificateRequest
        (acmCanonicalRequest d cr.requestCertificateInput.SubjectAlternativeNames) = none →
      env.sendACMRequestCertificate (env.LoadDefaultAWSConfig).fst
        cr.requestCertificateInput = Except.ok resp →
      env.marshalACMResponse resp = Except.ok body →
      venafiACMRequestCertificate env request =
        (some { StatusCode := http.StatusOK, Body := body },
         [Event.getPolicy (resolvedZone cr.VenafiZone),
          Event.validate
            (acmCanonicalRequest d cr.requestCertificateInput.SubjectAlternativeNames),
          Event.backendACMRequest cr.requestCertificateInput])) := by
  refine ⟨fun cr csr creq policy cfg resp body h1 h2 h3 h4 h5 h6 h7 h8 => ?_,
          fun cr d policy resp body h1 h2 h3 h4 h5 h6 => ?_⟩
  · simp [venafiACMPCAIssueCertificateRequest, h1, h2, h3, h4, h5, h6, h7, h8]
  · simp [venafiACMRequestCertificate, h1, h2, h3, h4, h5, h6]

/-- Witness for C2 at the all-success sample environment. -/
theorem C2_native_payload_roundtrip_witness :
    (sampleEnv.unmarshalPCA (sampleRequest acmpcaIssueCertificate "body").Body =
        Except.ok samplePCARequest ∧
      sampleEnv.sendPCAIssueCertificate { Region := "us-east-1" }
        samplePCARequest.issueCertificateInput =
        Except.ok { CertificateArn := "arn:aws:acm-pca:cert/1" } ∧
      sampleEnv.marshalPCAResponse { CertificateArn := "arn:aws:acm-pca:cert/1" } =
        Except.ok "\x7b\"CertificateArn\":\"arn:aws:acm-pca:cert/1\"\x7d") ∧
    venafiACMPCAIssueCertificateRequest sampleEnv
        (sampleRequest acmpcaIssueCertificate "body") =
      ({ StatusCode := http.StatusOK,
         Body := "\x7b\"CertificateArn\":\"arn:aws:acm-pca:cert/1\"\x7d" },
       [Event.getPolicy (resolvedZone samplePCARequest.VenafiZone),
        Event.validate sampleParsedCSR,
        Event.backendPCAIssue samplePCARequest.issueCertificateInput]) :=
  ⟨⟨rfl, rfl, rfl⟩,
   (C2_native_payload_roundtrip sampleEnv (sampleRequest acmpcaIssueCertificate "body")).1
     samplePCARequest [48, 130, 2, 1] sampleParsedCSR
     { ValidateCertificateRequest := fun _ => none } { Region := "us-east-1" }
     { CertificateArn := "arn:aws:acm-pca:cert/1" }
     "\x7b\"CertificateArn\":\"arn:aws:acm-pca:cert/1\"\x7d"
     rfl rfl rfl rfl rfl rfl rfl rfl⟩

/-- C7 evidence: the two gated handlers disagree on a failing
configuration load.  The ACM handler only logs the failure and proceeds:
with every other collaborator succeeding it still invokes the backend and
returns status 200.  The private-CA handler stops, but answers with the
internal-server-error status 500 rather than the dependency-failure status
424 it uses for policy-store failures. -/
theorem C7_config_load_failure_behavior (env : Env) (request : APIGatewayProxyRequest) :
    (∀ cr d policy cfg e resp body,
      env.unmarshalACM request.Body = Except.ok cr →
      cr.requestCertificateInput.DomainName = some d →
      env.GetPolicy (resolvedZone cr.VenafiZone) = Except.ok policy →
      policy.ValidateCertificateRequest
        (acmCanonicalRequest d cr.requestCertificateInput.SubjectAlternativeNames) = none →
      env.LoadDefaultAWSConfig = (cfg, some e) →
      env.sendACMRequestCertificate cfg cr.requestCertificateInput = Except.ok resp →
      env.marshalACMResponse resp = Except.ok body →
      venafiACMRequestCertificate env request =
        (some { StatusCode := http.StatusOK, Body := body },
         [Event.getPolicy (resolvedZone cr.VenafiZone),
          Event.validate
            (acmCanonicalRequest d cr.requestCertificateInput.SubjectAlternativeNames),
          Event.backendACMRequest cr.requestCertificateInput])) ∧
    (∀ cr csr creq policy cfg e,
      env.unmarshalPCA request.Body = Except.ok cr →
      env.base64DecodeString cr.issueCertificateInput.Csr = Except.ok csr →
      env.setCSR csr = Except.ok creq →
      env.GetPolicy (resolvedZone cr.VenafiZone) = Except.ok policy →
      policy.ValidateCertificateRequest creq = none →
      env.LoadDefaultAWSConfig = (cfg, some e) →
      venafiACMPCAIssueCertificateRequest env request =
        (clientError http.StatusInternalServerError ("Error loading client: " ++ e),
         [Event.getPolicy (resolvedZone cr.VenafiZone), Event.validate creq])) := by
  refine ⟨fun cr d policy cfg e resp body h1 h2 h3 h4 h5 h6 h7 => ?_,
          fun cr csr creq policy cfg e h1 h2 h3 h4 h5 h6 => ?_⟩
  · simp [venafiACMRequestCertificate, h1, h2, h3, h4, h5, h6, h7]
  · simp [venafiACMPCAIssueCertificateRequest, h1, h2, h3, h4, h5, h6]

/-- Witness for C7: with a failing configuration load and every other
collaborator succeeding, the ACM handler reaches the backend and returns
status 200. -/
theorem C7_config_load_failure_behavior_witness :
    (sampleEnvNoCfg.LoadDefaultAWSConfig =
        ({ Region := "" }, some "no credential provider")) ∧
    venafiACMRequestCertificate sampleEnvNoCfg
        (sampleRequest acmRequestCertificate "body") =
      (some { StatusCode := http.StatusOK,
              Body := "\x7b\"CertificateArn\":\"arn:aws:acm:cert/2\"\x7d" },
       [Event.getPolicy (resolvedZone sampleACMRequest.VenafiZone),
        Event.validate
          (acmCanonicalRequest "test.example.com"
            sampleACMRequest.requestCertificateInput.SubjectAlternativeNames),
        Event.backendACMRequest sampleACMRequest.requestCertificateInput]) :=
  ⟨rfl,
   (C7_config_load_failure_behavior sampleEnvNoCfg
       (sampleRequest acmRequestCertificate "body")).1
     sampleACMRequest "test.example.com" { ValidateCertificateRequest := fun _ => none }
     { Region := "" } "no credential provider"
     { CertificateArn := "arn:aws:acm:cert/2" }
     "\x7b\"CertificateArn\":\"arn:aws:acm:cert/2\"\x7d"
     rfl rfl rfl rfl rfl rfl rfl⟩

/-- C8: after a successful ACM decode the handler dereferences the
`DomainName` pointer with no malformed-payload branch: a payload without a
`DomainName` makes the handler panic (modelled as `none`) before any
policy or backend call, and a payload with one always produces a
well-defined response whose canonical subject common name is that domain. -/
theorem C8_domainname_deref (env : Env) (request : APIGatewayProxyRequest) :
    (∀ cr, env.unmarshalACM request.Body = Except.ok cr →
      cr.requestCertificateInput.DomainName = none →
      venafiACMRequestCertificate env request = (none, [])) ∧
    (∀ cr d, env.unmarshalACM request.Body = Except.ok cr →
      cr.requestCertificateInput.DomainName = some d →
      ((venafiACMRequestCertificate env request).fst ≠ none ∧
        ∀ req, Event.validate req ∈ (venafiACMRequestCertificate env request).snd →
          req.Subject.CommonName = d)) := by
  refine ⟨fun cr h1 h2 => ?_, fun cr d h1 h2 => ⟨?_, fun req hmem => ?_⟩⟩
  · simp [venafiACMRequestCertificate, h1, h2]
  · simp only [venafiACMRequestCertificate, h1, h2]
    repeat' split
    all_goals simp
  · simp only [venafiACMRequestCertificate, h1, h2] at hmem
    repeat' split at hmem
    all_goals simp_all [acmCanonicalRequest]

/-- Witness for C8: a decoded payload without a `DomainName` makes the
handler panic before any collaborator call. -/
theorem C8_domainname_deref_witness :
    (sampleEnvNoDomain.unmarshalACM (sampleRequest acmRequestCertificate "body").Body =
        Except.ok sampleACMRequestNoDomain ∧
      sampleACMRequestNoDomain.requestCertificateInput.DomainName = none) ∧
    venafiACMRequestCertificate sampleEnvNoDomain
        (sampleRequest acmRequestCertificate "body") = (none, []) :=
  ⟨⟨rfl, rfl⟩,
   (C8_domainname_deref sampleEnvNoDomain (sampleRequest acmRequestCertificate "body")).1
     sampleACMRequestNoDomain rfl rfl⟩

/-! Support lemmas for the envelope reader. -/

lemma skipJsonWs_nil : skipJsonWs [] = [] := by
  rw [skipJsonWs.eq_def]

lemma skipJsonWs_cons (c : Char) (rest : List Char) :
    skipJsonWs (c :: rest) = if isJsonWs c then skipJsonWs rest else c :: rest := by
  rw [skipJsonWs.eq_def]

lemma parseJsonString_cons (c : Char) (rest : List Char) :
    parseJsonString (c :: rest) = if c = '"' then parseJsonStringRest rest else none := by
  rw [parseJsonString.eq_def]

lemma parseJsonStringRest_quote (rest : List Char) :
    parseJsonStringRest ('"' :: rest) = some ([], rest) := by
  rw [parseJsonStringRest.eq_def]
  simp

lemma parseJsonStringRest_step (c : Char) (rest : List Char)
    (h1 : ¬ c = '"') (h2 : ¬ c = '\\') (h3 : ¬ c.toNat < 32) :
    parseJsonStringRest (c :: rest) =
      match parseJsonStringRest rest with
      | some (s, r) => some (c :: s, r)
      | none => none := by
  rw [parseJsonStringRest.eq_def]
  simp [h1, h2, h3]

/-- A run of plain characters parses to itself, consumed up to the closing
quote. -/
lemma parseJsonStringRest_plain (cs tail : List Char) (h : cs.all plainMsgChar = true) :
    parseJsonStringRest (cs ++ '"' :: tail) = some (cs, tail) := by
  induction cs with
  | nil => simp [parseJsonStringRest_quote]
  | cons c cs ih =>
    simp only [List.all_cons, Bool.and_eq_true] at h
    obtain ⟨hc, hcs⟩ := h
    simp only [plainMsgChar, Bool.and_eq_true, bne_iff_ne, ne_eq, decide_eq_true_eq] at hc
    obtain ⟨⟨hq, hb⟩, hge⟩ := hc
    have hlt : ¬ c.toNat < 32 := by omega
    rw [List.cons_append, parseJsonStringRest_step c _ hq hb hlt, ih hcs]

/-- For messages made of plain characters the interpolated envelope is a
well-formed JSON object carrying exactly the message. -/
lemma specMsgEnvelope_clientError (status : Nat) (msg : String)
    (h : msg.data.all plainMsgChar = true) :
    specMsgEnvelope (clientError status msg).Body = some msg := by
  have hbody : (clientError status msg).Body.data =
      Char.ofNat 123 :: ' ' :: '"' :: 'm' :: 's' :: 'g' :: '"' :: ' ' :: ':' :: ' ' :: '"' ::
        (msg.data ++ ['"', ' ', Char.ofNat 125]) := by
    simp [clientError, String.data_append]
  have hkey : parseJsonStringRest
      ('m' :: 's' :: 'g' :: '"' ::
        (' ' :: ':' :: ' ' :: '"' :: (msg.data ++ ['"', ' ', Char.ofNat 125]))) =
      some (['m', 's', 'g'],
        ' ' :: ':' :: ' ' :: '"' :: (msg.data ++ ['"', ' ', Char.ofNat 125])) := by
    rw [parseJsonStringRest_step _ _ (by decide) (by decide) (by decide),
        parseJsonStringRest_step _ _ (by decide) (by decide) (by decide),
        parseJsonStringRest_step _ _ (by decide) (by decide) (by decide),
        parseJsonStringRest_quote]
  have hval : parseJsonStringRest (msg.data ++ ['"', ' ', Char.ofNat 125]) =
      some (msg.data, [' ', Char.ofNat 125]) :=
    parseJsonStringRest_plain msg.data [' ', Char.ofNat 125] h
  rw [specMsgEnvelope, hbody]
  simp only [skipJsonWs_cons, skipJsonWs_nil, parseJsonString_cons, hkey, hval,
    show isJsonWs (Char.ofNat 123) = false from by decide,
    show isJsonWs ' ' = true from by decide,
    show isJsonWs '"' = false from by decide,
    show isJsonWs ':' = false from by decide,
    show isJsonWs (Char.ofNat 125) = false from by decide,
    if_true, if_false, Bool.false_eq_true, ite_false, ite_true]
  simp

/-- C9 counterexample: the claim fails as stated.  For the concrete
validator reason `CN=\x22evil\x22 denied` — a message containing double
quotes, as real validator reasons and decoder errors may — the body built
by `clientError` is not a well-formed JSON `msg` envelope carrying the
message: the interpolation is verbatim, with no JSON escaping. -/
theorem C9_envelope_not_json_counterexample :
    specMsgEnvelope (clientError http.StatusForbidden "CN=\x22evil\x22 denied").Body ≠
      some "CN=\x22evil\x22 denied" := by
  decide

/-- C9 amended: every failure response keeps the component's message and
status, and its body is the verbatim interpolation of the message into the
envelope literal; the body is the well-formed JSON object
`\x7b "msg" : "<message>" \x7d` carrying exactly the message whenever the
message contains no character that JSON requires to be escaped (no double
quote, no backslash, no control character). -/
theorem C9_error_envelope (status : Nat) (msg : String)
    (h : msg.data.all plainMsgChar = true) :
    (clientError status msg).StatusCode = status ∧
    (clientError status msg).Body = "\x7b \"msg\" : \"" ++ msg ++ "\" \x7d" ∧
    specMsgEnvelope (clientError status msg).Body = some msg :=
  ⟨rfl, rfl, specMsgEnvelope_clientError status msg h⟩

/-- Witness for C9 at a concrete plain message. -/
theorem C9_error_envelope_witness :
    ("policy denied".data.all plainMsgChar = true) ∧
    ((clientError http.StatusForbidden "policy denied").StatusCode = http.StatusForbidden ∧
      (clientError http.StatusForbidden "policy denied").Body =
        "\x7b \"msg\" : \"" ++ "policy denied" ++ "\" \x7d" ∧
      specMsgEnvelope (clientError http.StatusForbidden "policy denied").Body =
        some "policy denied") :=
  ⟨by decide, C9_error_envelope http.StatusForbidden "policy denied" (by decide)⟩

end AwsLambdaVenafi
